import Mathlib

/-!
# Levox License Server — verification development

Shallow embedding of the levox-license-server core logic:

* `utils/fingerprint.ts` — `normalizeDeviceFingerprint`
* `app/api/verify-license/route.ts` — the verification handler (revocation,
  record expiry, signature gate, device-fingerprint admission) and the
  revoke handler that shares the file
* `app/api/generate-free-license/route.ts`, `app/api/generate-pro-license/route.ts`
  and the admin issue-license handler — issuance with their duplicate checks
* `lib/crypto.ts` — `signLicenseToken` / `verifyLicenseToken`, whose RS256
  internals live in the `jsonwebtoken` library and are modelled abstractly
  from the specification

Strings that undergo character-level processing (device fingerprints,
e-mail addresses) are embedded as `List Char`; machine-irrelevant strings
(plan names, license keys) stay `String`.  Timestamps are integers
(milliseconds since epoch, matching the JavaScript `Date` comparisons).
-/

namespace Levox

/-- ECMAScript `String.prototype.trim` whitespace class (WhiteSpace ∪
LineTerminator code points), used by `fingerprint.trim()`. -/
def isJsSpace (c : Char) : Bool :=
  let n := c.toNat
  (9 ≤ n && n ≤ 13) || n == 32 || n == 160 || n == 5760 ||
  (8192 ≤ n && n ≤ 8202) || n == 8232 || n == 8233 || n == 8239 ||
  n == 8287 || n == 12288 || n == 65279

/-- The character class `[a-z0-9\-_]` kept by the regex replacement
`normalized.replace(/[^a-z0-9\-_]/g, '')` in `utils/fingerprint.ts`. -/
def allowedChar (c : Char) : Bool :=
  let n := c.toNat
  (97 ≤ n && n ≤ 122) || (48 ≤ n && n ≤ 57) || n == 45 || n == 95

/-- `s.trim()` on a character list: drop JS whitespace from both ends. -/
def trimChars (l : List Char) : List Char :=
  ((l.dropWhile isJsSpace).reverse.dropWhile isJsSpace).reverse

/-- The two exceptions `normalizeDeviceFingerprint` can throw:
`'Invalid device fingerprint provided'` (empty / non-string input) and
`'Device fingerprint must be at least 8 characters long'`. -/
inductive FingerprintError where
  | invalidInput
  | tooShort
deriving DecidableEq, Repr

/-- `normalizeDeviceFingerprint` from `utils/fingerprint.ts`:
reject empty input, trim, lowercase, strip characters outside
`[a-z0-9\-_]`, reject results shorter than 8, truncate results longer
than 128. `Char.toLower` is the same ASCII `A-Z → a-z` map the code's
`toLowerCase()` performs on these code points. -/
def normalizeDeviceFingerprint (fingerprint : List Char) :
    Except FingerprintError (List Char) :=
  if fingerprint = [] then
    .error .invalidInput
  else
    let normalized := ((trimChars fingerprint).map Char.toLower).filter allowedChar
    if normalized.length < 8 then
      .error .tooShort
    else if 128 < normalized.length then
      .ok (normalized.take 128)
    else
      .ok normalized

/-- The canonical form before the length checks: trim, lowercase, strip. -/
def canonOf (fingerprint : List Char) : List Char :=
  ((trimChars fingerprint).map Char.toLower).filter allowedChar

/-- A row of the `licenses` table (see `lib/supabase.ts` and the schema in
`deployment-checklist.md`).  `expires_at` is `Option` because the column is
nullable and the route guards it with `license.expires_at && ...`;
timestamps are integer milliseconds as compared by `new Date(...)`. -/
structure License where
  license_key : String
  email : String
  plan : String
  device_limit : Nat
  current_devices : List (List Char)
  expires_at : Option Int
  revoked : Bool
deriving DecidableEq, Repr

/-- The record-level expiry test of `verify-license/route.ts` line 91:
`license.expires_at && new Date(license.expires_at) < new Date()`. -/
def recordExpired (expires_at : Option Int) (now : Int) : Bool :=
  match expires_at with
  | none => false
  | some e => decide (e < now)

/-- The distinguishable responses of the verify-license handler.  `ok`
carries the fields of the `data` object (`valid`, `tier`, `expires_at`,
`device_limit`, `current_devices_count`, `device_limit_exceeded`);
`internalError` is the catch-all 500 reached when
`normalizeDeviceFingerprint` throws. -/
inductive VerifyResponse where
  | revokedErr
  | expiredErr
  | badSignatureErr
  | internalError
  | ok (valid : Bool) (tier : String) (expires_at : Option Int)
      (device_limit : Nat) (current_devices_count : Nat)
      (device_limit_exceeded : Bool)
deriving DecidableEq, Repr

/-- Outcome of one verification call: the HTTP response together with the
state of the license row after the call. -/
structure VerifyResult where
  response : VerifyResponse
  record : License
deriving DecidableEq, Repr

/-- The core of `POST /api/verify-license` (lines 82–162), applied to the
license row found for the token's `jti`.  `sigOk` is the outcome of the
`await verifyLicenseToken(body.token)` call (the handler only observes
success or the thrown error); `updateOk` is whether the Supabase
`update({ current_devices: ... })` call succeeds (on failure the handler
keeps the old count and still answers `ok`). -/
def verifyLicense (license : License) (sigOk : Bool)
    (fingerprint : Option (List Char)) (now : Int) (updateOk : Bool) :
    VerifyResult :=
  if license.revoked then
    ⟨.revokedErr, license⟩
  else if recordExpired license.expires_at now then
    ⟨.expiredErr, license⟩
  else if !sigOk then
    ⟨.badSignatureErr, license⟩
  else
    match fingerprint with
    | none =>
        ⟨.ok true license.plan license.expires_at license.device_limit
          license.current_devices.length false, license⟩
    | some fp =>
        match normalizeDeviceFingerprint fp with
        | .error _ => ⟨.internalError, license⟩
        | .ok nfp =>
            if license.current_devices.contains nfp then
              ⟨.ok true license.plan license.expires_at license.device_limit
                license.current_devices.length false, license⟩
            else if license.current_devices.length < license.device_limit then
              let updatedDevices := license.current_devices ++ [nfp]
              if updateOk then
                ⟨.ok true license.plan license.expires_at license.device_limit
                  updatedDevices.length false,
                 { license with current_devices := updatedDevices }⟩
              else
                ⟨.ok true license.plan license.expires_at license.device_limit
                  license.current_devices.length false, license⟩
            else
              ⟨.ok true license.plan license.expires_at license.device_limit
                license.current_devices.length true, license⟩

/-- Two verification calls on the same license under the
read-read-write-write interleaving the handler permits: the row read
(`select`) and the row write (`update`) are separate awaited Supabase
calls with no transaction or compare-and-swap, so both callers can read
the same snapshot and then write one after the other; the second write
overwrites the first.  Each caller's response is computed from its own
snapshot; the final row is the second writer's. -/
def concurrentVerifyRRWW (license : License) (sigOk : Bool)
    (fpA fpB : Option (List Char)) (now : Int) :
    VerifyResponse × VerifyResponse × License :=
  let ra := verifyLicense license sigOk fpA now true
  let rb := verifyLicense license sigOk fpB now true
  (ra.response, rb.response, rb.record)

/-- Responses of `POST /api/revoke-license` (second handler in
`verify-license/route.ts`, lines 190–284), after the admin-token and
body checks. -/
inductive RevokeResponse where
  | notFound
  | alreadyRevoked
  | storageError
  | ok
deriving DecidableEq, Repr

/-- The revoke handler applied to the looked-up row (`none` when the
select finds nothing).  `updateOk` is whether the Supabase
`update({ revoked: true })` succeeds. -/
def revokeLicense (license : Option License) (updateOk : Bool) :
    RevokeResponse × Option License :=
  match license with
  | none => (.notFound, none)
  | some l =>
      if l.revoked then (.alreadyRevoked, some l)
      else if !updateOk then (.storageError, some l)
      else (.ok, some { l with revoked := true })

/-- The e-mail test of `generate-free-license/route.ts` line 19, the
regex `^[^\s@]+@[^\s@]+\.[^\s@]+$`: no whitespace, exactly one `@` with
at least one character before it, and a `.` somewhere strictly inside
the part after the `@`. -/
def emailFormatOk (s : List Char) : Bool :=
  s.all (fun c => !(isJsSpace c)) &&
  s.count '@' == 1 &&
  match s.findIdx? (· == '@') with
  | none => false
  | some i =>
      let a := s.take i
      let b := s.drop (i + 1)
      !a.isEmpty && ((b.drop 1).dropLast.contains '.')

/-- The duplicate lookup shared by the free- and pro-license routes:
`select('id').eq('email', email).eq('plan', 'enterprise').single()`.
`.single()` yields a row (rather than an error with `data: null`)
exactly when the filter matches one row, so the handler's
`if (existingLicense)` fires exactly when one matching row exists —
revoked or expired rows included, since neither column is filtered. -/
def enterpriseLicenseFound (db : List License) (email : String) : Bool :=
  (db.filter (fun l => l.email == email && l.plan == "enterprise")).length == 1

/-- Responses of the issuance handlers.  `issued` carries the new
license key. -/
inductive IssueResponse where
  | emailRequired
  | invalidEmailFormat
  | enterpriseExists
  | signFailed
  | storeFailed
  | missingFields
  | invalidPlan
  | invalidDeviceLimit
  | invalidPeriod
  | issued (license_key : String)
deriving DecidableEq, Repr

/-- The row inserted by the free- and pro-license routes: plan
`'enterprise'`, `device_limit` 1, empty device list, not revoked. -/
def freshEnterpriseRow (licenseKey : String) (email : List Char)
    (expiresAt : Int) : License :=
  { license_key := licenseKey
    email := String.mk email
    plan := "enterprise"
    device_limit := 1
    current_devices := []
    expires_at := some expiresAt
    revoked := false }

/-- `POST /api/generate-free-license`: empty-email check, regex check,
duplicate check, sign, insert.  `signOk`/`storeOk` are the outcomes of
`signLicenseToken` and the Supabase insert; `licenseKey` is the
generated UUID and `expiresAt` the computed one-year expiry. -/
def generateFreeLicense (db : List License) (email : List Char)
    (licenseKey : String) (expiresAt : Int) (signOk storeOk : Bool) :
    IssueResponse × List License :=
  if email = [] ∨ trimChars email = [] then (.emailRequired, db)
  else if !emailFormatOk email then (.invalidEmailFormat, db)
  else if enterpriseLicenseFound db (String.mk email) then (.enterpriseExists, db)
  else if !signOk then (.signFailed, db)
  else if !storeOk then (.storeFailed, db)
  else (.issued licenseKey, db ++ [freshEnterpriseRow licenseKey email expiresAt])

/-- `POST /api/generate-pro-license`: same flow, but the only e-mail
validation is `if (!email)` — no regex. -/
def generateProLicense (db : List License) (email : List Char)
    (licenseKey : String) (expiresAt : Int) (signOk storeOk : Bool) :
    IssueResponse × List License :=
  if email = [] then (.emailRequired, db)
  else if enterpriseLicenseFound db (String.mk email) then (.enterpriseExists, db)
  else if !signOk then (.signFailed, db)
  else if !storeOk then (.storeFailed, db)
  else (.issued licenseKey, db ++ [freshEnterpriseRow licenseKey email expiresAt])

/-- The admin `POST /api/issue-license` handler (second handler in
`generate-free-license/route.ts`, lines 143–267), after the admin-token
check: field presence, plan/device_limit/period_days validation, sign,
insert.  It performs no duplicate lookup of any kind. -/
def issueLicense (db : List License) (email : String) (plan : String)
    (device_limit : Int) (period_days : Int) (licenseKey : String)
    (expiresAt : Int) (storeOk : Bool) : IssueResponse × List License :=
  if email = "" ∨ plan = "" ∨ device_limit = 0 ∨ period_days = 0 then
    (.missingFields, db)
  else if plan ≠ "pro" ∧ plan ≠ "enterprise" then (.invalidPlan, db)
  else if device_limit < 1 then (.invalidDeviceLimit, db)
  else if period_days < 1 then (.invalidPeriod, db)
  else if !storeOk then (.storeFailed, db)
  else
    (.issued licenseKey,
     db ++ [{ license_key := licenseKey
              email := email
              plan := plan
              device_limit := device_limit.toNat
              current_devices := []
              expires_at := some expiresAt
              revoked := false }])

/-- The JWT payload built at issuance (`lib/crypto.ts` `LicensePayload`). -/
structure LicensePayload where
  lic : String
  sub : String
  jti : String
  tier : String
  device_limit : Nat
  iat : Int
  exp : Int
deriving DecidableEq, Repr

/-- Modelled from the spec: the serialized signed token produced by
`jwt.sign(payload, privateKey, { algorithm: 'RS256', issuer, audience })`
in `lib/crypto.ts`.  The RS256 internals live in the `jsonwebtoken`
library, outside this repository, so the signature is modelled
abstractly: a token records its payload, the `iss`/`aud` claims the
library embeds, and an identifier of the private key that signed it. -/
structure SignedToken where
  payload : LicensePayload
  iss : String
  aud : String
  signedWith : Nat
deriving DecidableEq, Repr

/-- Modelled from the spec: `signLicenseToken` (`lib/crypto.ts`) —
serialize and sign the claims, embedding issuer and audience as
verifiable metadata. -/
def signLicenseToken (privateKey : Nat) (issuer audience : String)
    (payload : LicensePayload) : SignedToken :=
  { payload := payload, iss := issuer, aud := audience, signedWith := privateKey }

/-- The error kinds `jwt.verify` can raise, as the spec's
`VerificationError` sub-kinds. -/
inductive TokenVerifyError where
  | badSignature
  | issuerMismatch
  | audienceMismatch
  | expired
deriving DecidableEq, Repr

/-- Modelled from the spec: `verifyLicenseToken` (`lib/crypto.ts`) —
`jwt.verify(token, publicKey, { algorithms: ['RS256'], issuer, audience })`.
An abstract signature checks out exactly when the token was signed with
the private key matching `publicKeyOf`; issuer and audience must equal
the expected values; the embedded expiry is checked against the current
time with zero grace (`exp ≤ now` is expired). -/
def verifyLicenseToken (publicKeyOf : Nat) (issuer audience : String)
    (now : Int) (token : SignedToken) :
    Except TokenVerifyError LicensePayload :=
  if token.signedWith ≠ publicKeyOf then .error .badSignature
  else if token.iss ≠ issuer then .error .issuerMismatch
  else if token.aud ≠ audience then .error .audienceMismatch
  else if token.payload.exp ≤ now then .error .expired
  else .ok token.payload

/-! ## Theorems -/

/-- C1: a verification call carrying a device fingerprint on an
unrevoked, unexpired license with a valid token (and a successful
storage update) produces exactly one of three admission outcomes:
already-bound fingerprints leave the count and the record unchanged;
otherwise, under the device limit, the fingerprint is appended and the
count is incremented by one with the limit flag false; otherwise the
record is unchanged and the `device_limit_exceeded` flag is true. -/
theorem c1_device_admission_trichotomy
    (l : License) (fp nfp : List Char) (now : Int)
    (hrev : l.revoked = false)
    (hexp : recordExpired l.expires_at now = false)
    (hnorm : normalizeDeviceFingerprint fp = .ok nfp) :
    (nfp ∈ l.current_devices →
       verifyLicense l true (some fp) now true =
         ⟨.ok true l.plan l.expires_at l.device_limit
            l.current_devices.length false, l⟩) ∧
    (nfp ∉ l.current_devices →
       l.current_devices.length < l.device_limit →
       verifyLicense l true (some fp) now true =
         ⟨.ok true l.plan l.expires_at l.device_limit
            (l.current_devices.length + 1) false,
          { l with current_devices := l.current_devices ++ [nfp] }⟩) ∧
    (nfp ∉ l.current_devices →
       ¬ l.current_devices.length < l.device_limit →
       verifyLicense l true (some fp) now true =
         ⟨.ok true l.plan l.expires_at l.device_limit
            l.current_devices.length true, l⟩) := by
  refine ⟨fun h1 => ?_, fun h1 h2 => ?_, fun h1 h2 => ?_⟩
  · simp [verifyLicense, hrev, hexp, hnorm, h1]
  · simp [verifyLicense, hrev, hexp, hnorm, h1, h2]
  · simp [verifyLicense, hrev, hexp, hnorm, h1, h2]

/-- Fingerprint `device-aaa111` used in concrete scenarios. -/
def fpAaa : List Char := "device-aaa111".data

/-- Fingerprint `device-bbb222` used in concrete scenarios. -/
def fpBbb : List Char := "device-bbb222".data

/-- A fresh unrevoked pro license with device limit 1 and no bound
devices, expiring at time 10. -/
def sampleLicense0 : License :=
  { license_key := "k", email := "a@b.io", plan := "pro"
    device_limit := 1, current_devices := [], expires_at := some 10
    revoked := false }

/-- `sampleLicense0` with `device-aaa111` bound. -/
def sampleLicense1 : License :=
  { sampleLicense0 with current_devices := [fpAaa] }

/-- Closed witness for C1: at limit 1, a new fingerprint is bound and
the count becomes 1; re-submitting it is reported without change; a
second distinct fingerprint trips the `device_limit_exceeded` flag. -/
theorem c1_device_admission_trichotomy_witness :
    (verifyLicense sampleLicense0 true (some fpAaa) 5 true =
      ⟨.ok true "pro" (some 10) 1 1 false, sampleLicense1⟩) ∧
    (verifyLicense sampleLicense1 true (some fpAaa) 5 true =
      ⟨.ok true "pro" (some 10) 1 1 false, sampleLicense1⟩) ∧
    (verifyLicense sampleLicense1 true (some fpBbb) 5 true =
      ⟨.ok true "pro" (some 10) 1 1 true, sampleLicense1⟩) := by
  refine ⟨?_, ?_, ?_⟩
  · exact (c1_device_admission_trichotomy sampleLicense0 fpAaa fpAaa 5
      rfl rfl rfl).2.1 (by decide) (by decide)
  · exact (c1_device_admission_trichotomy sampleLicense1 fpAaa fpAaa 5
      rfl rfl rfl).1 (by decide)
  · exact (c1_device_admission_trichotomy sampleLicense1 fpBbb fpBbb 5
      rfl rfl rfl).2.2 (by decide) (by decide)

/-- C9: when the storage update appending a new fingerprint fails, the
handler still answers `ok` with `valid = true`,
`device_limit_exceeded = false` and the pre-append device count, and
the stored record is unchanged; no field of the response surfaces the
storage failure. -/
theorem c9_update_failure_swallowed
    (l : License) (fp nfp : List Char) (now : Int)
    (hrev : l.revoked = false)
    (hexp : recordExpired l.expires_at now = false)
    (hnorm : normalizeDeviceFingerprint fp = .ok nfp)
    (hnew : nfp ∉ l.current_devices)
    (hroom : l.current_devices.length < l.device_limit) :
    verifyLicense l true (some fp) now false =
      ⟨.ok true l.plan l.expires_at l.device_limit
         l.current_devices.length false, l⟩ := by
  simp [verifyLicense, hrev, hexp, hnorm, hnew, hroom]

/-- Closed witness for C9: with a failing update, binding
`device-aaa111` to a fresh license answers `ok` with count 0 and the
record keeps its empty device list. -/
theorem c9_update_failure_swallowed_witness :
    verifyLicense sampleLicense0 true (some fpAaa) 5 false =
      ⟨.ok true "pro" (some 10) 1 0 false, sampleLicense0⟩ :=
  c9_update_failure_swallowed sampleLicense0 fpAaa fpAaa 5
    rfl rfl rfl (by decide) (by decide)

/-- Helper: the verify handler answers `expiredErr` exactly when the
record is unrevoked and the record-level expiry test fires. -/
theorem verify_response_expired_iff (l : License) (sigOk updateOk : Bool)
    (fp : Option (List Char)) (now : Int) :
    (verifyLicense l sigOk fp now updateOk).response = .expiredErr ↔
      (l.revoked = false ∧ recordExpired l.expires_at now = true) := by
  rcases fp with _ | fp
  · by_cases h1 : l.revoked <;> by_cases h2 : recordExpired l.expires_at now <;>
      cases sigOk <;> simp [verifyLicense, h1, h2]
  · by_cases h1 : l.revoked <;> by_cases h2 : recordExpired l.expires_at now <;>
      cases sigOk <;> cases hn : normalizeDeviceFingerprint fp <;>
      simp [verifyLicense, h1, h2, hn] <;> split_ifs <;> simp

/-- C10: a record whose stored `expires_at` is null is never rejected
as expired: the handler's result does not depend on the current time at
all, and with an unrevoked record and a valid token (no fingerprint)
verification succeeds. -/
theorem c10_null_expiry_never_expired
    (l : License) (sigOk updateOk : Bool)
    (fp : Option (List Char)) (now : Int)
    (hnull : l.expires_at = none) :
    (verifyLicense l sigOk fp now updateOk).response ≠ .expiredErr ∧
    (∀ now' : Int,
       verifyLicense l sigOk fp now updateOk =
         verifyLicense l sigOk fp now' updateOk) ∧
    (l.revoked = false → sigOk = true →
       verifyLicense l true none now updateOk =
         ⟨.ok true l.plan none l.device_limit
            l.current_devices.length false, l⟩) := by
  have hx : ∀ t : Int, recordExpired l.expires_at t = false := by
    intro t; rw [hnull]; rfl
  refine ⟨?_, fun now' => ?_, fun hrev _ => ?_⟩
  · rw [Ne, verify_response_expired_iff]
    simp [recordExpired, hnull]
  · simp [verifyLicense, hx]
  · simp [verifyLicense, hrev, hnull, recordExpired]

/-- `sampleLicense0` with no stored expiry. -/
def sampleLicenseNoExpiry : License :=
  { sampleLicense0 with expires_at := none }

/-- Closed witness for C10: with `expires_at` null, verification at an
arbitrarily late time still succeeds and agrees with verification at
time 0. -/
theorem c10_null_expiry_never_expired_witness :
    (verifyLicense sampleLicenseNoExpiry true none 999999999999 true).response
        ≠ .expiredErr ∧
    verifyLicense sampleLicenseNoExpiry true none 999999999999 true =
      verifyLicense sampleLicenseNoExpiry true none 0 true ∧
    verifyLicense sampleLicenseNoExpiry true none 999999999999 true =
      ⟨.ok true "pro" none 1 0 false, sampleLicenseNoExpiry⟩ := by
  have h := c10_null_expiry_never_expired sampleLicenseNoExpiry true true
    none 999999999999 rfl
  exact ⟨h.1, h.2.1 0, h.2.2 rfl rfl⟩

/-- C4: revocation is absorbing.  A successful revoke leaves a record
with `revoked = true`; every verify call on a revoked record fails with
the revoked error — before and regardless of the expiry test and the
signature outcome, at any time — and leaves the record untouched; and
neither the verify handler nor the revoke handler ever turns `revoked`
back to `false`. -/
theorem c4_revocation_absorbing
    (l l' : License) (hrevoke : revokeLicense (some l) true = (.ok, some l')) :
    l'.revoked = true ∧
    (∀ (m : License) (sigOk updateOk : Bool) (fp : Option (List Char))
       (now : Int), m.revoked = true →
         verifyLicense m sigOk fp now updateOk = ⟨.revokedErr, m⟩) ∧
    (∀ (m : License) (sigOk updateOk : Bool) (fp : Option (List Char))
       (now : Int), m.revoked = true →
         (verifyLicense m sigOk fp now updateOk).record.revoked = true) ∧
    (∀ (m m' : License) (updateOk : Bool) (resp : RevokeResponse),
       m.revoked = true → revokeLicense (some m) updateOk = (resp, some m') →
         m'.revoked = true) := by
  have hl' : l'.revoked = true := by
    by_cases hr : l.revoked
    · simp [revokeLicense, hr] at hrevoke
    · simp [revokeLicense, hr] at hrevoke
      rw [← hrevoke]
  refine ⟨hl', fun m sigOk updateOk fp now hm => ?_, ?_, ?_⟩
  · simp [verifyLicense, hm]
  · intro m sigOk updateOk fp now hm
    simp [verifyLicense, hm]
  · intro m m' updateOk resp hm hrv
    simp [revokeLicense, hm] at hrv
    simp_all

/-- Closed witness for C4: revoking the sample license yields a revoked
record, and verifying it afterwards — with a valid token and time well
before its expiry — fails with the revoked error. -/
theorem c4_revocation_absorbing_witness :
    (revokeLicense (some sampleLicense0) true).1 = .ok ∧
    ({ sampleLicense0 with revoked := true } : License).revoked = true ∧
    verifyLicense { sampleLicense0 with revoked := true } true none 5 true =
      ⟨.revokedErr, { sampleLicense0 with revoked := true }⟩ := by
  have h := c4_revocation_absorbing sampleLicense0
    { sampleLicense0 with revoked := true } rfl
  exact ⟨rfl, h.1, h.2.1 _ true true none 5 rfl⟩

/-- An unrevoked license whose stored expiry is exactly time 1000. -/
def boundaryLicense : License := { sampleLicense0 with expires_at := some 1000 }

/-- C3 counterexample: the record check uses a strict comparison
(`new Date(license.expires_at) < new Date()`), so at
`expires_at = now = 1000` verification does **not** fail as expired —
with a valid token it succeeds outright — refuting the claim that the
record check fails Expired whenever `expires_at <= now`. -/
theorem c3_expiry_boundary_counterexample :
    (verifyLicense boundaryLicense true none 1000 true).response
        ≠ VerifyResponse.expiredErr ∧
    verifyLicense boundaryLicense true none 1000 true =
      ⟨.ok true "pro" (some 1000) 1 0 false, boundaryLicense⟩ := by
  exact ⟨by decide, rfl⟩

/-- C3 amended: the record-level expiry check is strict — verification
fails with the expired error iff the record stores an expiry strictly
earlier than the current time; a record expiring exactly now passes the
record check, and one expiring a second later verifies successfully
with a valid token. -/
theorem c3_expiry_boundary_amended
    (l : License) (sigOk updateOk : Bool) (fp : Option (List Char))
    (now : Int) (hrev : l.revoked = false) :
    ((verifyLicense l sigOk fp now updateOk).response = .expiredErr ↔
       ∃ e, l.expires_at = some e ∧ e < now) ∧
    (l.expires_at = some now →
       (verifyLicense l sigOk fp now updateOk).response ≠ .expiredErr) ∧
    (l.expires_at = some (now + 1000) → sigOk = true →
       verifyLicense l true none now updateOk =
         ⟨.ok true l.plan l.expires_at l.device_limit
            l.current_devices.length false, l⟩) := by
  have hiff : (verifyLicense l sigOk fp now updateOk).response = .expiredErr ↔
      ∃ e, l.expires_at = some e ∧ e < now := by
    rw [verify_response_expired_iff]
    cases he : l.expires_at with
    | none => simp [recordExpired, hrev, he]
    | some e => simp [recordExpired, hrev, he]
  refine ⟨hiff, fun hb => ?_, fun hf _ => ?_⟩
  · rw [Ne, hiff]
    rintro ⟨e, he, hlt⟩
    rw [hb] at he
    cases he
    omega
  · have hx : recordExpired l.expires_at now = false := by
      rw [hf]; simp [recordExpired]
    simp [verifyLicense, hrev, hx]

/-- Closed witness for C3-amended: an expiry of 500 fails as expired at
time 1000, an expiry of exactly 1000 does not, and an expiry of 2000
verifies successfully. -/
theorem c3_expiry_boundary_amended_witness :
    (verifyLicense { sampleLicense0 with expires_at := some 500 } true none
        1000 true).response = .expiredErr ∧
    (verifyLicense boundaryLicense true none 1000 true).response
        ≠ .expiredErr ∧
    verifyLicense { sampleLicense0 with expires_at := some 2000 } true none
        1000 true =
      ⟨.ok true "pro" (some 2000) 1 0 false,
       { sampleLicense0 with expires_at := some 2000 }⟩ := by
  refine ⟨?_, ?_, ?_⟩
  · exact (c3_expiry_boundary_amended
      { sampleLicense0 with expires_at := some 500 } true true none 1000
      rfl).1.mpr ⟨500, rfl, by omega⟩
  · exact (c3_expiry_boundary_amended boundaryLicense true true none 1000
      rfl).2.1 rfl
  · exact (c3_expiry_boundary_amended
      { sampleLicense0 with expires_at := some 2000 } true true none 1000
      rfl).2.2 rfl rfl

/-- C2: the admission algorithm is **not** safe under concurrency.  With
`device_limit = 1` and no devices bound, two concurrent verification
calls with distinct fingerprints, interleaved read-read-write-write
(both row reads before either row write, which the handler's separate
un-transactional `select` and `update` calls permit), both report
`bound` (`device_limit_exceeded = false`, count 1) — instead of the one
`bound` / one `limit_exceeded` split the claim requires — and the final
stored row holds only the second writer's fingerprint. -/
theorem c2_concurrent_admission_race :
    concurrentVerifyRRWW sampleLicenseNoExpiry true (some fpAaa) (some fpBbb)
        0 =
      (.ok true "pro" none 1 1 false,
       .ok true "pro" none 1 1 false,
       { sampleLicenseNoExpiry with current_devices := [fpBbb] }) := by
  rfl

/-- A revoked (and long-expired) enterprise license row. -/
def revokedEnterpriseRow : License :=
  { license_key := "old", email := "user@levox.dev", plan := "enterprise"
    device_limit := 1, current_devices := [], expires_at := some 0
    revoked := true }

/-- C5 counterexample: a subject whose only record for the tier is
revoked (and expired) is refused a fresh license — the duplicate lookup
filters on email and plan only, never on `revoked` or `expires_at` — so
issuance fails with the duplicate error where the claim requires a
fresh license to be issued. -/
theorem c5_duplicate_active_counterexample :
    (generateFreeLicense [revokedEnterpriseRow] "user@levox.dev".data "new"
        1000 true true).1 = .enterpriseExists ∧
    (generateFreeLicense [revokedEnterpriseRow] "user@levox.dev".data "new"
        1000 true true).2 = [revokedEnterpriseRow] := by
  exact ⟨rfl, rfl⟩

/-- C5 amended: the free- and pro-license routes fail with the
duplicate error iff the store lookup for the same email and plan
`'enterprise'` matches exactly one existing record — regardless of that
record's revoked or expired status (revoking every row never changes
the decision) — and the admin issue-license route performs no duplicate
check at all. -/
theorem c5_duplicate_active_amended
    (db : List License) (email : List Char) (licenseKey : String)
    (expiresAt : Int) (signOk storeOk : Bool)
    (hne : email ≠ []) (htrim : trimChars email ≠ [])
    (hfmt : emailFormatOk email = true) :
    ((generateFreeLicense db email licenseKey expiresAt signOk storeOk).1 =
        .enterpriseExists ↔
      enterpriseLicenseFound db (String.mk email) = true) ∧
    ((generateProLicense db email licenseKey expiresAt signOk storeOk).1 =
        .enterpriseExists ↔
      enterpriseLicenseFound db (String.mk email) = true) ∧
    (∀ em, enterpriseLicenseFound
        (db.map (fun l => { l with revoked := true })) em =
      enterpriseLicenseFound db em) ∧
    (∀ (em plan : String) (dl pd : Int) (lk : String) (ea : Int)
       (st : Bool),
       (issueLicense db em plan dl pd lk ea st).1 ≠ .enterpriseExists) := by
  refine ⟨?_, ?_, ?_, ?_⟩
  · by_cases hdup : enterpriseLicenseFound db (String.mk email)
    · simp [generateFreeLicense, hne, htrim, hfmt, hdup]
    · cases signOk <;> cases storeOk <;>
        simp [generateFreeLicense, hne, htrim, hfmt, hdup]
  · by_cases hdup : enterpriseLicenseFound db (String.mk email)
    · simp [generateProLicense, hne, hdup]
    · cases signOk <;> cases storeOk <;>
        simp [generateProLicense, hne, hdup]
  · intro em
    have key : (db.map (fun l => { l with revoked := true })).filter
          (fun l => l.email == em && l.plan == "enterprise") =
        (db.filter (fun l => l.email == em && l.plan == "enterprise")).map
          (fun l => { l with revoked := true }) := by
      induction db with
      | nil => rfl
      | cons x t ih =>
          by_cases hx : (x.email == em && x.plan == "enterprise") = true
          · simp only [List.map_cons, List.filter_cons, hx, if_pos, ih]
          · simp only [List.map_cons, List.filter_cons]
            rw [if_neg (by simpa using hx), if_neg (by simpa using hx), ih]
    unfold enterpriseLicenseFound
    rw [key, List.length_map]
  · intro em plan dl pd lk ea st
    unfold issueLicense
    split_ifs <;> simp

/-- Closed witness for C5-amended: with the sole revoked enterprise row
in store, the free route fails with the duplicate error; with an empty
store it does not; and the admin route never produces it. -/
theorem c5_duplicate_active_amended_witness :
    (generateFreeLicense [revokedEnterpriseRow] "user@levox.dev".data "new"
        1000 true true).1 = .enterpriseExists ∧
    (generateFreeLicense [] "user@levox.dev".data "new" 1000 true
        true).1 ≠ .enterpriseExists ∧
    (issueLicense [] "user@levox.dev" "pro" 3 365 "new" 1000 true).1 ≠
      .enterpriseExists := by
  refine ⟨?_, ?_, ?_⟩
  · exact (c5_duplicate_active_amended [revokedEnterpriseRow]
      "user@levox.dev".data "new" 1000 true true (by decide) (by decide)
      (by decide)).1.mpr (by decide)
  · rw [Ne, (c5_duplicate_active_amended [] "user@levox.dev".data "new" 1000
      true true (by decide) (by decide) (by decide)).1]
    decide
  · exact (c5_duplicate_active_amended [] "user@levox.dev".data "new" 1000
      true true (by decide) (by decide) (by decide)).2.2.2
      "user@levox.dev" "pro" 3 365 "new" 1000 true

/-- C7: round trip.  For claims satisfying the data-model invariants
(`issued_at < expires_at`, `device_limit ≥ 1`), verifying a token signed
with the matching key pair, issuer and audience — at any time before the
embedded expiry — succeeds and returns exactly the signed claims. -/
theorem c7_sign_verify_round_trip
    (privateKey : Nat) (issuer audience : String) (p : LicensePayload)
    (now : Int)
    (hinv1 : p.iat < p.exp) (hinv2 : 1 ≤ p.device_limit)
    (hnow : now < p.exp) :
    verifyLicenseToken privateKey issuer audience now
        (signLicenseToken privateKey issuer audience p) = .ok p := by
  unfold signLicenseToken verifyLicenseToken
  have h : ¬ p.exp ≤ now := by omega
  simp [h]

/-- Closed witness for C7: a concrete payload signed with key 7 for the
default issuer and audience verifies back to itself one second after
issuance. -/
theorem c7_sign_verify_round_trip_witness :
    verifyLicenseToken 7 "levox-license-server" "levox-cli" 1001
        (signLicenseToken 7 "levox-license-server" "levox-cli"
          { lic := "LVX", sub := "test@levox.dev", jti := "key-1"
            tier := "pro", device_limit := 3, iat := 1000
            exp := 1000000 }) =
      .ok { lic := "LVX", sub := "test@levox.dev", jti := "key-1"
            tier := "pro", device_limit := 3, iat := 1000
            exp := 1000000 } :=
  c7_sign_verify_round_trip 7 "levox-license-server" "levox-cli"
    { lic := "LVX", sub := "test@levox.dev", jti := "key-1"
      tier := "pro", device_limit := 3, iat := 1000, exp := 1000000 }
    1001 (by norm_num) (by norm_num) (by norm_num)

/-- Valid code points below the surrogate range survive
`Char.ofNat` unchanged. -/
theorem char_toNat_ofNat {n : Nat} (h : n < 55296) :
    (Char.ofNat n).toNat = n := by
  rw [Char.ofNat, dif_pos (Or.inl h)]
  rfl

/-- No code point between `-` (45) and `z` (122) is JS whitespace. -/
theorem isJsSpace_eq_false {c : Char} (h1 : 45 ≤ c.toNat)
    (h2 : c.toNat ≤ 122) : isJsSpace c = false := by
  simp only [isJsSpace, Bool.or_eq_false_iff, Bool.and_eq_false_iff,
    decide_eq_false_iff_not, Nat.not_le, beq_eq_false_iff_ne, ne_eq]
  omega

/-- Lowercasing never changes whether a character is JS whitespace. -/
theorem isJsSpace_toLower (c : Char) :
    isJsSpace (Char.toLower c) = isJsSpace c := by
  unfold Char.toLower
  by_cases h : c.toNat ≥ 65 ∧ c.toNat ≤ 90
  · rw [if_pos h]
    have h1 : (Char.ofNat (c.toNat + 32)).toNat = c.toNat + 32 :=
      char_toNat_ofNat (by omega)
    rw [isJsSpace_eq_false (by omega) (by omega),
        isJsSpace_eq_false (c := c) (by omega) (by omega)]
  · rw [if_neg h]

/-- Characters in `[a-z0-9\-_]` are already lowercase. -/
theorem toLower_of_allowed {c : Char} (h : allowedChar c = true) :
    Char.toLower c = c := by
  unfold Char.toLower
  simp only [allowedChar, Bool.or_eq_true, Bool.and_eq_true, decide_eq_true_eq,
    beq_iff_eq] at h
  rw [if_neg (by omega)]

/-- Characters in `[a-z0-9\-_]` are never JS whitespace. -/
theorem not_space_of_allowed {c : Char} (h : allowedChar c = true) :
    isJsSpace c = false := by
  simp only [allowedChar, Bool.or_eq_true, Bool.and_eq_true, decide_eq_true_eq,
    beq_iff_eq] at h
  exact isJsSpace_eq_false (by omega) (by omega)

/-- `dropWhile` is the identity on a list none of whose elements
satisfy the predicate. -/
theorem dropWhile_eq_self_of_all {p : Char → Bool} {l : List Char}
    (h : ∀ c ∈ l, p c = false) : l.dropWhile p = l := by
  cases l with
  | nil => rfl
  | cons x t => exact List.dropWhile_cons_of_neg (by simp [h x (by simp)])

/-- Trimming is the identity on strings of allowed characters. -/
theorem trimChars_eq_self_of_allowed {l : List Char}
    (h : ∀ c ∈ l, allowedChar c = true) : trimChars l = l := by
  unfold trimChars
  rw [dropWhile_eq_self_of_all (fun c hc => not_space_of_allowed (h c hc)),
      dropWhile_eq_self_of_all
        (fun c hc => not_space_of_allowed (h c (List.mem_reverse.mp hc))),
      List.reverse_reverse]

/-- Lowercasing is the identity on strings of allowed characters. -/
theorem map_toLower_eq_self {l : List Char}
    (h : ∀ c ∈ l, allowedChar c = true) : l.map Char.toLower = l := by
  induction l with
  | nil => rfl
  | cons x t ih =>
      rw [List.map_cons, toLower_of_allowed (h x (List.mem_cons_self x t)),
          ih (fun c hc => h c (List.mem_cons_of_mem x hc))]

/-- Unfolding equation for `canonOf` in the shape `simp` produces. -/
theorem canonOf_def (fp : List Char) :
    List.filter allowedChar (List.map Char.toLower (trimChars fp)) =
      canonOf fp := rfl

/-- `canonOf` is the identity on strings of allowed characters. -/
theorem canonOf_eq_self_of_allowed {l : List Char}
    (h : ∀ c ∈ l, allowedChar c = true) : canonOf l = l := by
  unfold canonOf
  rw [trimChars_eq_self_of_allowed h, map_toLower_eq_self h,
      List.filter_eq_self.mpr h]

/-- Every character of a canonical form is allowed. -/
theorem mem_canonOf_allowed {l : List Char} {c : Char} (h : c ∈ canonOf l) :
    allowedChar c = true := List.of_mem_filter h

/-- Shared characterization of `normalizeDeviceFingerprint`: empty
input is rejected, canonical forms shorter than 8 are rejected, and
otherwise the canonical form truncated to 128 characters is returned —
all of whose characters are allowed, with length between 8 and 128. -/
theorem normalize_characterization (fp : List Char) :
    (fp = [] → normalizeDeviceFingerprint fp = .error .invalidInput) ∧
    (fp ≠ [] → (canonOf fp).length < 8 →
       normalizeDeviceFingerprint fp = .error .tooShort) ∧
    (fp ≠ [] → 8 ≤ (canonOf fp).length →
       ∃ out, normalizeDeviceFingerprint fp = .ok out ∧
         out = (canonOf fp).take 128 ∧
         8 ≤ out.length ∧ out.length ≤ 128 ∧
         ∀ c ∈ out, allowedChar c = true) := by
  refine ⟨fun h => by simp [normalizeDeviceFingerprint, h], fun h hlen => ?_,
    fun h hlen => ?_⟩
  · simp only [normalizeDeviceFingerprint, if_neg h, canonOf_def]
    rw [if_pos hlen]
  · by_cases hbig : 128 < (canonOf fp).length
    · refine ⟨(canonOf fp).take 128, ?_, rfl, ?_, ?_, ?_⟩
      · simp only [normalizeDeviceFingerprint, if_neg h, canonOf_def]
        rw [if_neg (by omega), if_pos hbig]
      · rw [List.length_take]; omega
      · rw [List.length_take]; omega
      · exact fun c hc => mem_canonOf_allowed (List.mem_of_mem_take hc)
    · refine ⟨canonOf fp, ?_, (List.take_of_length_le (by omega)).symm, by omega,
        by omega, fun c hc => mem_canonOf_allowed hc⟩
      simp only [normalizeDeviceFingerprint, if_neg h, canonOf_def]
      rw [if_neg (by omega), if_neg hbig]

/-- C6: `normalizeDeviceFingerprint` trims, lowercases and strips every
character outside `[a-z0-9\-_]`; it fails with the invalid-input error
on empty input, fails with the too-short error when the canonical form
is under 8 characters, and otherwise succeeds with the canonical form
truncated to at most 128 characters — a string of allowed characters
with length between 8 and 128. -/
theorem c6_normalize_fingerprint (fp : List Char) :
    (fp = [] → normalizeDeviceFingerprint fp = .error .invalidInput) ∧
    (fp ≠ [] → (canonOf fp).length < 8 →
       normalizeDeviceFingerprint fp = .error .tooShort) ∧
    (fp ≠ [] → 8 ≤ (canonOf fp).length →
       ∃ out, normalizeDeviceFingerprint fp = .ok out ∧
         out = (canonOf fp).take 128 ∧
         8 ≤ out.length ∧ out.length ≤ 128 ∧
         ∀ c ∈ out, allowedChar c = true) :=
  normalize_characterization fp

/-- Closed witness for C6: the empty string is rejected as invalid,
`dev!` is rejected as too short, and `"  Device-AAA-111!  "` trims,
lowercases and strips to `device-aaa-111`. -/
theorem c6_normalize_fingerprint_witness :
    normalizeDeviceFingerprint [] = .error .invalidInput ∧
    normalizeDeviceFingerprint "dev!".data = .error .tooShort ∧
    normalizeDeviceFingerprint "  Device-AAA-111!  ".data =
      .ok "device-aaa-111".data := by
  refine ⟨(c6_normalize_fingerprint []).1 rfl,
    (c6_normalize_fingerprint "dev!".data).2.1 (by decide) (by decide), ?_⟩
  obtain ⟨out, heq, hout, -, -, -⟩ :=
    (c6_normalize_fingerprint "  Device-AAA-111!  ".data).2.2 (by decide)
      (by decide)
  rw [heq, hout]
  rfl

/-- Trimming commutes with lowercasing, because lowercasing never
changes whether a character is whitespace. -/
theorem trimChars_map_toLower (x : List Char) :
    trimChars (x.map Char.toLower) = (trimChars x).map Char.toLower := by
  have hs : (isJsSpace ∘ Char.toLower) = isJsSpace := funext isJsSpace_toLower
  unfold trimChars
  rw [List.dropWhile_map, hs, ← List.map_reverse, List.dropWhile_map, hs,
      ← List.map_reverse]

/-- Inputs that agree after lowercasing have the same canonical form. -/
theorem canonOf_congr_toLower {x₁ x₂ : List Char}
    (h : x₁.map Char.toLower = x₂.map Char.toLower) :
    canonOf x₁ = canonOf x₂ := by
  unfold canonOf
  rw [← trimChars_map_toLower, ← trimChars_map_toLower, h]

/-- Non-empty inputs with the same canonical form normalize
identically. -/
theorem normalize_congr_canon {x₁ x₂ : List Char} (h1 : x₁ ≠ [])
    (h2 : x₂ ≠ []) (h : canonOf x₁ = canonOf x₂) :
    normalizeDeviceFingerprint x₁ = normalizeDeviceFingerprint x₂ := by
  simp only [normalizeDeviceFingerprint, if_neg h1, if_neg h2, canonOf_def, h]

/-- JS whitespace is never an allowed character. -/
theorem allowed_eq_false_of_space {c : Char} (h : isJsSpace c = true) :
    allowedChar c = false := by
  by_cases ha : allowedChar c = true
  · rw [not_space_of_allowed ha] at h
    cases h
  · simpa using ha

/-- Dropping a whitespace prefix does not change the lowercased,
filtered content: the filter strips whitespace anyway. -/
theorem filter_map_dropWhile_space (l : List Char) :
    ((l.dropWhile isJsSpace).map Char.toLower).filter allowedChar =
      (l.map Char.toLower).filter allowedChar := by
  induction l with
  | nil => rfl
  | cons x t ih =>
      by_cases hx : isJsSpace x = true
      · have hax : allowedChar (Char.toLower x) = false :=
          allowed_eq_false_of_space (by rw [isJsSpace_toLower]; exact hx)
        rw [List.dropWhile_cons_of_pos hx, ih, List.map_cons,
            List.filter_cons_of_neg (by simp [hax])]
      · rw [List.dropWhile_cons_of_neg (by simpa using hx)]

/-- The canonical form does not depend on the trim step at all: the
character filter removes whitespace wherever it sits. -/
theorem canonOf_eq_filter (l : List Char) :
    canonOf l = (l.map Char.toLower).filter allowedChar := by
  unfold canonOf trimChars
  rw [List.map_reverse, List.filter_reverse, filter_map_dropWhile_space,
      List.map_reverse, List.filter_reverse, List.reverse_reverse,
      filter_map_dropWhile_space]

/-- The canonical form distributes over append. -/
theorem canonOf_append (l₁ l₂ : List Char) :
    canonOf (l₁ ++ l₂) = canonOf l₁ ++ canonOf l₂ := by
  rw [canonOf_eq_filter, canonOf_eq_filter, canonOf_eq_filter,
      List.map_append, List.filter_append]

/-- All-whitespace strings have an empty canonical form. -/
theorem canonOf_eq_nil_of_space {w : List Char}
    (h : ∀ c ∈ w, isJsSpace c = true) : canonOf w = [] := by
  rw [canonOf_eq_filter]
  refine List.filter_eq_nil_iff.mpr ?_
  intro a ha
  obtain ⟨c, hc, rfl⟩ := List.mem_map.mp ha
  simp [allowed_eq_false_of_space (by rw [isJsSpace_toLower]; exact h c hc)]

/-- C8: `normalizeDeviceFingerprint` is idempotent — a successful
output normalizes to itself — and pure: it is a function of its input
alone, and raw inputs that differ only by letter case (equal after
lowercasing), only by surrounding whitespace (one is the other padded
with JS whitespace), only by extraneous punctuation (a stripped
character inserted anywhere), or more generally in any way that leaves
the canonical form equal, normalize to the identical result. -/
theorem c8_normalize_idempotent_pure :
    (∀ x y, normalizeDeviceFingerprint x = .ok y →
       normalizeDeviceFingerprint y = .ok y) ∧
    (∀ x₁ x₂, x₁.map Char.toLower = x₂.map Char.toLower →
       normalizeDeviceFingerprint x₁ = normalizeDeviceFingerprint x₂) ∧
    (∀ x w₁ w₂, x ≠ [] →
       (∀ c ∈ w₁, isJsSpace c = true) → (∀ c ∈ w₂, isJsSpace c = true) →
       normalizeDeviceFingerprint (w₁ ++ x ++ w₂) =
         normalizeDeviceFingerprint x) ∧
    (∀ x₁ x₂ (p : Char), x₁ ≠ [] → allowedChar (Char.toLower p) = false →
       normalizeDeviceFingerprint (x₁ ++ [p] ++ x₂) =
         normalizeDeviceFingerprint (x₁ ++ x₂)) ∧
    (∀ x₁ x₂, x₁ ≠ [] → x₂ ≠ [] → canonOf x₁ = canonOf x₂ →
       normalizeDeviceFingerprint x₁ = normalizeDeviceFingerprint x₂) := by
  refine ⟨?_, ?_, ?_, ?_, fun x₁ x₂ h1 h2 h => normalize_congr_canon h1 h2 h⟩
  · intro x y hx
    have hch := normalize_characterization x
    by_cases h0 : x = []
    · rw [hch.1 h0] at hx; cases hx
    · by_cases hlen : (canonOf x).length < 8
      · rw [hch.2.1 h0 hlen] at hx; cases hx
      · obtain ⟨out, heq, hout, h8, h128, hall⟩ := hch.2.2 h0 (by omega)
        rw [heq] at hx
        cases hx
        have hne : y ≠ [] := by
          intro hy
          rw [hy] at h8
          simp at h8
        simp only [normalizeDeviceFingerprint, if_neg hne, canonOf_def]
        have hc : canonOf y = y := canonOf_eq_self_of_allowed hall
        rw [hc, if_neg (by omega), if_neg (by omega)]
  · intro x₁ x₂ h
    by_cases h0 : x₁ = []
    · have h2 : x₂ = [] := by
        rw [h0] at h
        simpa using h.symm
      rw [h0, h2]
    · have h2 : x₂ ≠ [] := by
        intro hx2
        rw [hx2] at h
        simp only [List.map_nil, List.map_eq_nil_iff] at h
        exact h0 h
      exact normalize_congr_canon h0 h2 (canonOf_congr_toLower h)
  · intro x w₁ w₂ h0 hw1 hw2
    refine normalize_congr_canon (by simp [h0]) h0 ?_
    rw [canonOf_append, canonOf_append, canonOf_eq_nil_of_space hw1,
        canonOf_eq_nil_of_space hw2, List.nil_append, List.append_nil]
  · intro x₁ x₂ p h0 hp
    refine normalize_congr_canon (by simp [h0]) (by simp [h0]) ?_
    have hps : canonOf [p] = [] := by
      rw [canonOf_eq_filter]
      simp [hp]
    rw [canonOf_append, canonOf_append, canonOf_append, hps, List.append_nil]

/-- Closed witness for C8: normalizing a raw fingerprint and then
normalizing its output is a fixed point, and case, whitespace and
punctuation variants of `device-aaa-111` all normalize to it. -/
theorem c8_normalize_idempotent_pure_witness :
    normalizeDeviceFingerprint "  Device-AAA-111!  ".data =
      .ok "device-aaa-111".data ∧
    normalizeDeviceFingerprint "device-aaa-111".data =
      .ok "device-aaa-111".data ∧
    normalizeDeviceFingerprint "DEVICE-AAA-111".data =
      normalizeDeviceFingerprint "device-aaa-111".data ∧
    normalizeDeviceFingerprint
        ("  ".data ++ "device-aaa-111".data ++ " ".data) =
      normalizeDeviceFingerprint "device-aaa-111".data ∧
    normalizeDeviceFingerprint ("device".data ++ ['!'] ++ "-aaa-111".data) =
      normalizeDeviceFingerprint ("device".data ++ "-aaa-111".data) ∧
    normalizeDeviceFingerprint "  device-aaa-111!!  ".data =
      normalizeDeviceFingerprint "device-aaa-111".data := by
  have h1 : normalizeDeviceFingerprint "  Device-AAA-111!  ".data =
      .ok "device-aaa-111".data := rfl
  exact ⟨h1, c8_normalize_idempotent_pure.1 _ _ h1,
    c8_normalize_idempotent_pure.2.1 _ _ rfl,
    c8_normalize_idempotent_pure.2.2.1 _ _ _ (by decide) (by decide)
      (by decide),
    c8_normalize_idempotent_pure.2.2.2.1 _ _ '!' (by decide) (by decide),
    c8_normalize_idempotent_pure.2.2.2.2 _ _ (by decide) (by decide) rfl⟩

end Levox
